import Mathlib

/-!
Shallow embedding of `src/main.py` (a single-page Streamlit dashboard script)
and proofs about its rendering behaviour.

Numbers appearing in the analytics snapshot are modelled as rationals (`ℚ`);
Python's division, which raises `ZeroDivisionError` on a zero divisor, is
modelled in `Except`.  Statements of the script that can raise are modelled
in the `Except PyError` monad; widget calls (`st.metric`, `st.info`, ...)
are modelled as emitting `Widget` values.
-/

namespace Helloguys

/-- Errors the script can raise at the modelled operations. -/
inductive PyError where
  | nameError (name : String)
  | zeroDivisionError
deriving DecidableEq

/-- A row of the `daily_sales` table (columns used: `sale_date`, `quantity`). -/
structure DailySalesRow where
  sale_date : String
  quantity : Int
deriving DecidableEq

/-- A row of the `category_stats` table (columns used: `category`, `total_amount`). -/
structure CategoryRow where
  category : String
  total_amount : ℚ
deriving DecidableEq

/-- A row of the `recent_sales` table (columns used at lines 186-190). -/
structure SaleRow where
  sale_code : String
  quantity : Int
  name : String
  total_amount : ℚ
deriving DecidableEq

/-- A row of the `low_stock` table (columns used at lines 197-201). -/
structure StockRow where
  name : String
  category : String
  stock : ℚ
  min_stock_level : ℚ
deriving DecidableEq

/-- The mapping returned by `get_analytics_data()`.  Each key may be absent
(`none`); the script reads every key with `analytics.get(key, default)`. -/
structure Analytics where
  total_products : Option Int
  total_sales : Option Int
  total_revenue : Option ℚ
  out_of_stock : Option Int
  daily_sales : Option (List DailySalesRow)
  category_stats : Option (List CategoryRow)
  recent_sales : Option (List SaleRow)
  low_stock : Option (List StockRow)
deriving DecidableEq

/-- `analytics.get('total_products', 0)` (line 100). -/
def Analytics.getTotalProducts (a : Analytics) : Int := a.total_products.getD 0

/-- `analytics.get('total_sales', 0)` (line 109). -/
def Analytics.getTotalSales (a : Analytics) : Int := a.total_sales.getD 0

/-- `analytics.get('total_revenue', 0)` (line 121). -/
def Analytics.getTotalRevenue (a : Analytics) : ℚ := a.total_revenue.getD 0

/-- `analytics.get('out_of_stock', 0)` (line 130). -/
def Analytics.getOutOfStock (a : Analytics) : Int := a.out_of_stock.getD 0

/-- `analytics.get('daily_sales', pd.DataFrame())` (line 138). -/
def Analytics.getDailySales (a : Analytics) : List DailySalesRow := a.daily_sales.getD []

/-- `analytics.get('category_stats', pd.DataFrame())` (line 160). -/
def Analytics.getCategoryStats (a : Analytics) : List CategoryRow := a.category_stats.getD []

/-- `analytics.get('recent_sales', pd.DataFrame())` (line 184). -/
def Analytics.getRecentSales (a : Analytics) : List SaleRow := a.recent_sales.getD []

/-- `analytics.get('low_stock', pd.DataFrame())` (line 195). -/
def Analytics.getLowStock (a : Analytics) : List StockRow := a.low_stock.getD []

/-- The widgets the script emits, carrying the data they display. -/
inductive Widget where
  | markdown (text : String)
  | title (text : String)
  | subheader (text : String)
  | metric (label : String) (value : String)
  | lineChart (title : String) (rows : List DailySalesRow)
  | pieChart (title : String) (rows : List CategoryRow)
  | info (msg : String)
  | success (msg : String)
  | warning (msg : String)
  | caption (text : String)
deriving DecidableEq

/-! ### Python `:,.2f` formatting -/

/-- Round a rational to the nearest integer, ties to even (the rounding
Python's fixed-point float formatting performs).  The floor is computed as
`num.fdiv den` to keep the definition kernel-reducible. -/
def roundHalfEven (q : ℚ) : Int :=
  let f : Int := q.num.fdiv q.den
  let frac : ℚ := q - (f : ℚ)
  if frac < 1 / 2 then f
  else if 1 / 2 < frac then f + 1
  else if f % 2 = 0 then f else f + 1

/-- Insert a thousands separator after every third character of a reversed
digit list. -/
def commaGroupRev : List Char → List Char
  | a :: b :: c :: d :: rest => a :: b :: c :: ',' :: commaGroupRev (d :: rest)
  | l => l

/-- Decimal digits of `n` with `,` thousands separators, as in Python's `,`
format option. -/
def natGrouped (n : Nat) : String :=
  String.mk (commaGroupRev (Nat.toDigits 10 n).reverse).reverse

/-- Two decimal digits, left-padded with `0`. -/
def twoDigits (n : Nat) : String :=
  if n < 10 then "0" ++ toString n else toString n

/-- Python's `f"{v:,.2f}"`: fixed-point with two decimals, half-even
rounding, and `,` thousands separators. -/
def pyFormatCommaTwoDec (q : ℚ) : String :=
  let cents : Int := roundHalfEven (q * 100)
  let sign : String := if cents < 0 then "-" else ""
  let n : Nat := cents.natAbs
  sign ++ natGrouped (n / 100) ++ "." ++ twoDigits (n % 100)

/-! ### The classifier and the stock-alert loop -/

/-- Lines 206-207:
`def get_stock_status(percent): return "Low" if percent < 50 else "Warning"`. -/
def get_stock_status (percent : ℚ) : String :=
  if percent < 50 then "Low" else "Warning"

/-- Line 198: `remaining_percent = (product['stock'] / product['min_stock_level']) * 100`.
Python division raises `ZeroDivisionError` on a zero divisor. -/
def computeRemainingPercent (stock min_stock_level : ℚ) : Except PyError ℚ :=
  if min_stock_level = 0 then Except.error PyError.zeroDivisionError
  else Except.ok (stock / min_stock_level * 100)

/-- Evaluating the name `get_stock_status` and calling it: Python looks the
name up in the globals bound so far (`env`); an unbound name raises
`NameError`. -/
def callGetStockStatus (env : List String) (arg : ℚ) : Except PyError String :=
  if "get_stock_status" ∈ env then Except.ok (get_stock_status arg)
  else Except.error (PyError.nameError "get_stock_status")

/-- Global function names bound when the Stock Alerts tab body
(lines 194-204) executes: the script's only `def` statement, the one binding
`get_stock_status`, is at line 206, after that block, so nothing is bound yet. -/
def globalsAtStockAlerts : List String := []

/-- Global function names bound once the whole script has executed. -/
def globalsAtEndOfScript : List String := ["get_stock_status"]

/-- The body of the `for` loop at lines 197-202 for one `low_stock` row:
compute `remaining_percent`, then build the f-string (which calls
`get_stock_status`) and emit `st.warning`. -/
def renderStockAlertRow (env : List String) (product : StockRow) :
    Except PyError Widget := do
  let remaining_percent ← computeRemainingPercent product.stock product.min_stock_level
  let status ← callGetStockStatus env remaining_percent
  Except.ok (Widget.warning
    ("⚠️ " ++ product.name ++ " (" ++ product.category ++ ")\n" ++
     "Stock: " ++ toString product.stock ++ " units (" ++ status ++ ")"))

/-- The Stock Alerts tab body, lines 194-204. -/
def renderStockAlertsTab (env : List String) (analytics : Analytics) :
    Except PyError (List Widget) :=
  let low_stock := analytics.getLowStock
  if low_stock.isEmpty then
    Except.ok [Widget.success "No stock alerts - Inventory levels are healthy!"]
  else
    low_stock.mapM (renderStockAlertRow env)

/-- Line 187-190: one `st.success` per recent sale. -/
def renderSaleEntry (sale : SaleRow) : Widget :=
  Widget.success
    ("Sale #" ++ sale.sale_code ++ ": " ++ toString sale.quantity ++ " x " ++
     sale.name ++ " ($" ++ pyFormatCommaTwoDec sale.total_amount ++ ")")

/-- The Recent Sales tab body, lines 183-192. -/
def renderRecentSalesTab (analytics : Analytics) : List Widget :=
  let recent_sales := analytics.getRecentSales
  if recent_sales.isEmpty then [Widget.info "No recent sales to display"]
  else recent_sales.map renderSaleEntry

/-- The four metric cards, lines 91-134. -/
def renderMetrics (analytics : Analytics) : List Widget :=
  [ Widget.metric "Total Products" (toString analytics.getTotalProducts)
  , Widget.metric "Total Sales" (toString analytics.getTotalSales)
  , Widget.metric "Revenue" ("$" ++ pyFormatCommaTwoDec analytics.getTotalRevenue)
  , Widget.metric "Out of Stock" (toString analytics.getOutOfStock) ]

/-- The Sales Trend section body, lines 137-156. -/
def renderSalesTrend (analytics : Analytics) : List Widget :=
  let daily_sales := analytics.getDailySales
  if daily_sales.isEmpty then [Widget.info "No sales data available yet"]
  else [Widget.lineChart "Daily Sales Overview" daily_sales]

/-- The Category Performance section body, lines 159-177. -/
def renderCategoryPerformance (analytics : Analytics) : List Widget :=
  let category_stats := analytics.getCategoryStats
  if category_stats.isEmpty then [Widget.info "No category data available"]
  else [Widget.pieChart "Sales by Category" category_stats]

/-- The main-page content, lines 85-204, in source order. -/
def renderMain (env : List String) (analytics : Analytics) :
    Except PyError (List Widget) := do
  let metrics := renderMetrics analytics
  let trend := renderSalesTrend analytics
  let category := renderCategoryPerformance analytics
  let recent := renderRecentSalesTab analytics
  let alerts ← renderStockAlertsTab env analytics
  Except.ok (metrics ++ trend ++ category ++ recent ++ alerts)

/-! ### Whole-script execution -/

/-- The session's `data_manager` handle (line 68); `get_analytics_data()`
returns the snapshot it holds. -/
structure DataManager where
  data : Analytics
deriving DecidableEq

/-- `st.session_state.data_manager.get_analytics_data()` (line 88). -/
def DataManager.get_analytics_data (dm : DataManager) : Analytics := dm.data

/-- A completed render: the sidebar widgets and the main-page widgets. -/
structure Page where
  sidebar : List Widget
  main : List Widget

/-- Line 60-64: the sidebar status message controlled by the
`offline_mode` checkbox. -/
def renderOfflineStatus (offline_mode : Bool) : Widget :=
  if offline_mode then Widget.success "✅ Using local storage only"
  else Widget.info "💾 Data stored locally and synced when online"

/-- Sidebar widgets emitted before the offline-mode status (lines 53-59). -/
def sidebarBeforeStatus : List Widget :=
  [ Widget.markdown "## 📱 Mobile App"
  , Widget.info "Get our offline mobile app that stores all data on your device!"
  , Widget.markdown "### Local Storage Status" ]

/-- Sidebar widgets emitted after the offline-mode status and before the
main page (lines 71-82). -/
def sidebarAfterStatus : List Widget :=
  [ Widget.title "📊 Navigation"
  , Widget.info "Welcome to your Inventory Dashboard!"
  , Widget.subheader "Quick Actions" ]

/-- Sidebar widgets emitted after the main page, lines 210-216 (`now` is
the formatted `datetime.now()`). -/
def sidebarFooter (now : String) : List Widget :=
  [ Widget.caption "System Status: 🟢 Online"
  , Widget.caption ("Last Updated: " ++ now)
  , Widget.caption "Data is stored in your browser's local storage" ]

/-- The sidebar as a whole, for a given `offline_mode` toggle. -/
def renderSidebar (offline_mode : Bool) (now : String) : List Widget :=
  sidebarBeforeStatus ++ renderOfflineStatus offline_mode :: sidebarAfterStatus
    ++ sidebarFooter now

/-- The whole script run top to bottom: the sidebar prologue, the
unconditional `get_analytics_data()` call (line 88), the main-page render
(which aborts the script if it raises), and the sidebar footer. -/
def runScript (offline_mode : Bool) (dm : DataManager) (now : String) :
    Except PyError Page := do
  let sidebarTop := sidebarBeforeStatus ++ renderOfflineStatus offline_mode
    :: sidebarAfterStatus
  let analytics := dm.get_analytics_data
  let mainWidgets ← renderMain globalsAtStockAlerts analytics
  Except.ok { sidebar := sidebarTop ++ sidebarFooter now, main := mainWidgets }

/-! ### State-passing render: each step returns the snapshot it received

Every rendering statement of `main.py` only reads `analytics` (via
`analytics.get(...)`), never assigns to it or to any of its tables, so each
step of the state-passing embedding passes the snapshot through unchanged. -/

/-- Lines 91-134: the metric cards read four scalar keys. -/
def metricsStep (analytics : Analytics) : Analytics × List Widget :=
  (analytics, renderMetrics analytics)

/-- Lines 137-156: the sales-trend section reads `daily_sales`. -/
def trendStep (analytics : Analytics) : Analytics × List Widget :=
  (analytics, renderSalesTrend analytics)

/-- Lines 159-177: the category section reads `category_stats`. -/
def categoryStep (analytics : Analytics) : Analytics × List Widget :=
  (analytics, renderCategoryPerformance analytics)

/-- Lines 183-192: the recent-sales tab reads `recent_sales`. -/
def recentStep (analytics : Analytics) : Analytics × List Widget :=
  (analytics, renderRecentSalesTab analytics)

/-- Lines 194-204: the stock-alerts tab reads `low_stock`. -/
def alertsStep (env : List String) (analytics : Analytics) :
    Analytics × Except PyError (List Widget) :=
  (analytics, renderStockAlertsTab env analytics)

/-- The main-page render with the snapshot threaded through every step. -/
def renderMainSt (env : List String) (analytics : Analytics) :
    Analytics × Except PyError (List Widget) :=
  let s1 := metricsStep analytics
  let s2 := trendStep s1.fst
  let s3 := categoryStep s2.fst
  let s4 := recentStep s3.fst
  let s5 := alertsStep env s4.fst
  (s5.fst, do
    let alerts ← s5.snd
    Except.ok (s1.snd ++ s2.snd ++ s3.snd ++ s4.snd ++ alerts))

/-! ### Sample data for witnesses and counterexamples -/

/-- A snapshot with every key absent. -/
def emptyAnalytics : Analytics :=
  { total_products := none, total_sales := none, total_revenue := none
  , out_of_stock := none, daily_sales := none, category_stats := none
  , recent_sales := none, low_stock := none }

/-- A `low_stock` row with a positive minimum stock level
(`10 / 20 * 100 = 50`). -/
def sampleStockRow : StockRow :=
  { name := "Hammer", category := "Tools", stock := 10, min_stock_level := 20 }

/-- A snapshot whose only present key is a one-row `low_stock` table. -/
def alertsAnalytics : Analytics :=
  { emptyAnalytics with low_stock := some [sampleStockRow] }

/-- A `low_stock` row whose minimum stock level is zero. -/
def zeroMinRow : StockRow :=
  { name := "Bolt", category := "Hardware", stock := 3, min_stock_level := 0 }

/-- A snapshot whose `low_stock` table starts with a zero-minimum row. -/
def zeroMinAnalytics : Analytics :=
  { emptyAnalytics with low_stock := some [zeroMinRow] }

/-- A snapshot with a present `total_revenue` of `12345.67`. -/
def revenueAnalytics : Analytics :=
  { emptyAnalytics with total_revenue := some (1234567 / 100) }

/-! ### Helper lemmas -/

/-- `roundHalfEven` is the identity on integers. -/
theorem roundHalfEven_intCast (n : Int) : roundHalfEven ((n : ℚ)) = n := by
  unfold roundHalfEven
  simp [Rat.num_intCast, Rat.den_intCast, Int.fdiv_one]

/-- `f"{0:,.2f}"` is `0.00`. -/
theorem pyFormat_zero : pyFormatCommaTwoDec 0 = "0.00" := by
  have h : ((0 : ℚ)) * 100 = ((0 : Int) : ℚ) := by norm_num
  simp only [pyFormatCommaTwoDec, h, roundHalfEven_intCast]
  decide

/-- `f"{12345.67:,.2f}"` is `12,345.67`. -/
theorem pyFormat_big : pyFormatCommaTwoDec (1234567 / 100) = "12,345.67" := by
  have h : ((1234567 : ℚ) / 100) * 100 = ((1234567 : Int) : ℚ) := by norm_num
  simp only [pyFormatCommaTwoDec, h, roundHalfEven_intCast]
  decide

/-- `f"{1234.5:,.2f}"` is `1,234.50`. -/
theorem pyFormat_half : pyFormatCommaTwoDec (2469 / 2) = "1,234.50" := by
  have h : ((2469 : ℚ) / 2) * 100 = ((123450 : Int) : ℚ) := by norm_num
  simp only [pyFormatCommaTwoDec, h, roundHalfEven_intCast]
  decide

/-! ### Claims -/

/-- C1: `get_stock_status` returns `"Low"` for every input below 50 and
`"Warning"` for every input at or above 50; the boundary 50 itself yields
`"Warning"`, and out-of-range inputs follow the same rule: `-10` and `0`
yield `"Low"`, `101` yields `"Warning"`. -/
theorem c1_get_stock_status_threshold :
    (∀ x : ℚ, x < 50 → get_stock_status x = "Low") ∧
    (∀ x : ℚ, 50 ≤ x → get_stock_status x = "Warning") ∧
    get_stock_status 50 = "Warning" ∧
    get_stock_status (-10) = "Low" ∧
    get_stock_status 0 = "Low" ∧
    get_stock_status 101 = "Warning" := by
  refine ⟨?_, ?_, by decide, by decide, by decide, by decide⟩
  · intro x h
    unfold get_stock_status
    rw [if_pos h]
  · intro x h
    unfold get_stock_status
    rw [if_neg (not_lt.mpr h)]

/-- Witness for C1 at the concrete inputs 25 and 75. -/
theorem c1_witness :
    get_stock_status 25 = "Low" ∧ get_stock_status 75 = "Warning" :=
  ⟨c1_get_stock_status_threshold.1 25 (by norm_num),
   c1_get_stock_status_threshold.2.1 75 (by norm_num)⟩

/-- C7: the classifier is total (every rational input yields one of the two
status labels, none is rejected) and deterministic (equal inputs yield equal
labels); as a Lean function it is side-effect-free by construction. -/
theorem c7_classifier_total_deterministic :
    (∀ x : ℚ, get_stock_status x = "Low" ∨ get_stock_status x = "Warning") ∧
    (∀ x y : ℚ, x = y → get_stock_status x = get_stock_status y) := by
  constructor
  · intro x
    unfold get_stock_status
    by_cases h : x < 50
    · exact Or.inl (if_pos h)
    · exact Or.inr (if_neg h)
  · intro x y h
    rw [h]

/-- Witness for C7 at the concrete input 42. -/
theorem c7_witness :
    (get_stock_status 42 = "Low" ∨ get_stock_status 42 = "Warning") ∧
    get_stock_status 42 = get_stock_status 42 :=
  ⟨c7_classifier_total_deterministic.1 42,
   c7_classifier_total_deterministic.2 42 42 rfl⟩

/-- C3: line 198 computes `remaining_percent = stock / min_stock_level * 100`
for every row with a nonzero minimum level; `stock = 10, min = 20` gives 50,
classified `"Warning"`, and `stock = 5, min = 20` gives 25, classified
`"Low"`. -/
theorem c3_remaining_percent_examples :
    (∀ stock minLevel : ℚ, minLevel ≠ 0 →
        computeRemainingPercent stock minLevel
          = Except.ok (stock / minLevel * 100)) ∧
    computeRemainingPercent 10 20 = Except.ok 50 ∧
    get_stock_status 50 = "Warning" ∧
    computeRemainingPercent 5 20 = Except.ok 25 ∧
    get_stock_status 25 = "Low" := by
  refine ⟨?_, ?_, by decide, ?_, by decide⟩
  · intro s m h
    unfold computeRemainingPercent
    rw [if_neg h]
  · unfold computeRemainingPercent
    norm_num
  · unfold computeRemainingPercent
    norm_num

/-- Witness for C3 at the concrete inputs 10 and 20. -/
theorem c3_witness :
    computeRemainingPercent 10 20 = Except.ok (10 / 20 * 100) :=
  c3_remaining_percent_examples.1 10 20 (by norm_num)

/-- C4: the division at line 198 is unguarded: a zero
`min_stock_level` makes `remaining_percent` fail with the division error,
and any snapshot whose `low_stock` table starts with such a row makes the
whole alert-rendering step fail, whatever names are in scope; with a
nonzero minimum the computation always succeeds. -/
theorem c4_zero_min_stock_division_error :
    (∀ stock : ℚ, computeRemainingPercent stock 0
        = Except.error PyError.zeroDivisionError) ∧
    (∀ (env : List String) (a : Analytics) (row : StockRow)
        (rest : List StockRow),
        a.getLowStock = row :: rest → row.min_stock_level = 0 →
        renderStockAlertsTab env a = Except.error PyError.zeroDivisionError) ∧
    (∀ stock minLevel : ℚ, minLevel ≠ 0 →
        ∃ v, computeRemainingPercent stock minLevel = Except.ok v) := by
  refine ⟨?_, ?_, ?_⟩
  · intro s
    unfold computeRemainingPercent
    rw [if_pos rfl]
  · intro env a row rest hrow hmin
    unfold renderStockAlertsTab
    rw [hrow]
    simp [List.mapM, List.mapM.loop, renderStockAlertRow,
      computeRemainingPercent, hmin, Bind.bind, Except.bind]
  · intro s m h
    exact ⟨s / m * 100, by unfold computeRemainingPercent; rw [if_neg h]⟩

/-- Witness for C4 at the concrete snapshot `zeroMinAnalytics` and the
concrete inputs `(5, 0)` and `(5, 20)`. -/
theorem c4_witness :
    computeRemainingPercent 5 0 = Except.error PyError.zeroDivisionError ∧
    renderStockAlertsTab globalsAtStockAlerts zeroMinAnalytics
      = Except.error PyError.zeroDivisionError ∧
    (∃ v, computeRemainingPercent 5 20 = Except.ok v) :=
  ⟨c4_zero_min_stock_division_error.1 5,
   c4_zero_min_stock_division_error.2.1 globalsAtStockAlerts zeroMinAnalytics
     zeroMinRow [] rfl rfl,
   c4_zero_min_stock_division_error.2.2 5 20 (by norm_num)⟩

/-- C2 counterexample: a snapshot whose one `low_stock` row has
`min_stock_level = 0` has a non-empty table, yet rendering the Stock Alerts
tab raises the division error of line 198, not a `NameError`: the division
is evaluated before the name `get_stock_status` is looked up. -/
theorem c2_counterexample :
    zeroMinAnalytics.getLowStock ≠ [] ∧
    renderStockAlertsTab globalsAtStockAlerts zeroMinAnalytics
      = Except.error PyError.zeroDivisionError ∧
    (Except.error PyError.zeroDivisionError : Except PyError (List Widget))
      ≠ Except.error (PyError.nameError "get_stock_status") := by
  refine ⟨by decide, by rfl, ?_⟩
  intro h
  exact PyError.noConfusion (Except.error.inj h)

/-- C2 (amended): `get_stock_status` is called at line 201 before its `def`
at line 206 has executed, so whenever `low_stock` is non-empty and its first
row has a nonzero `min_stock_level`, rendering the Stock Alerts tab raises
`NameError` on `get_stock_status` (a first row with a zero minimum raises
the division error of line 198 instead); the tab completes without error
exactly when `low_stock` is empty, rendering the healthy-inventory message. -/
theorem c2_stock_alerts_name_error (a : Analytics) :
    (∀ (row : StockRow) (rest : List StockRow),
        a.getLowStock = row :: rest → row.min_stock_level ≠ 0 →
        renderStockAlertsTab globalsAtStockAlerts a
          = Except.error (PyError.nameError "get_stock_status")) ∧
    (a.getLowStock = [] →
        renderStockAlertsTab globalsAtStockAlerts a
          = Except.ok
              [Widget.success "No stock alerts - Inventory levels are healthy!"]) := by
  constructor
  · intro row rest hrow hmin
    unfold renderStockAlertsTab
    rw [hrow]
    simp [List.mapM, List.mapM.loop, renderStockAlertRow,
      computeRemainingPercent, hmin, callGetStockStatus, globalsAtStockAlerts,
      Bind.bind, Except.bind]
  · intro h
    unfold renderStockAlertsTab
    rw [h]
    rfl

/-- Witness for C2 at the concrete snapshots `alertsAnalytics` (one row,
minimum 20) and `emptyAnalytics`. -/
theorem c2_witness :
    renderStockAlertsTab globalsAtStockAlerts alertsAnalytics
      = Except.error (PyError.nameError "get_stock_status") ∧
    renderStockAlertsTab globalsAtStockAlerts emptyAnalytics
      = Except.ok
          [Widget.success "No stock alerts - Inventory levels are healthy!"] :=
  ⟨(c2_stock_alerts_name_error alertsAnalytics).1 sampleStockRow [] rfl
     (by norm_num [sampleStockRow]),
   (c2_stock_alerts_name_error emptyAnalytics).2 rfl⟩

/-- C5: every empty table renders as a single placeholder message: an empty
`recent_sales` renders exactly the one `st.info` message and no sale entry,
an empty `daily_sales` and an empty `category_stats` render their `st.info`
messages, and an empty `low_stock` renders the one healthy-inventory
`st.success` message. -/
theorem c5_empty_tables_placeholders (a : Analytics) :
    (a.getRecentSales = [] →
        renderRecentSalesTab a = [Widget.info "No recent sales to display"]) ∧
    (a.getDailySales = [] →
        renderSalesTrend a = [Widget.info "No sales data available yet"]) ∧
    (a.getCategoryStats = [] →
        renderCategoryPerformance a
          = [Widget.info "No category data available"]) ∧
    (a.getLowStock = [] →
        renderStockAlertsTab globalsAtStockAlerts a
          = Except.ok
              [Widget.success "No stock alerts - Inventory levels are healthy!"]) := by
  refine ⟨?_, ?_, ?_, ?_⟩
  · intro h
    unfold renderRecentSalesTab
    rw [h]
    rfl
  · intro h
    unfold renderSalesTrend
    rw [h]
    rfl
  · intro h
    unfold renderCategoryPerformance
    rw [h]
    rfl
  · intro h
    unfold renderStockAlertsTab
    rw [h]
    rfl

/-- Witness for C5 at the concrete snapshot `emptyAnalytics`. -/
theorem c5_witness :
    renderRecentSalesTab emptyAnalytics
      = [Widget.info "No recent sales to display"] ∧
    renderSalesTrend emptyAnalytics
      = [Widget.info "No sales data available yet"] ∧
    renderCategoryPerformance emptyAnalytics
      = [Widget.info "No category data available"] ∧
    renderStockAlertsTab globalsAtStockAlerts emptyAnalytics
      = Except.ok
          [Widget.success "No stock alerts - Inventory levels are healthy!"] :=
  ⟨(c5_empty_tables_placeholders emptyAnalytics).1 rfl,
   (c5_empty_tables_placeholders emptyAnalytics).2.1 rfl,
   (c5_empty_tables_placeholders emptyAnalytics).2.2.1 rfl,
   (c5_empty_tables_placeholders emptyAnalytics).2.2.2 rfl⟩

/-- C6: every key absent from the analytics mapping defaults: the four
scalar keys default to 0, the four table keys default to the empty table,
and with `total_products` absent the Total Products metric renders the
value `0`. -/
theorem c6_missing_keys_default (a : Analytics) :
    (a.total_products = none → a.getTotalProducts = 0) ∧
    (a.total_sales = none → a.getTotalSales = 0) ∧
    (a.total_revenue = none → a.getTotalRevenue = 0) ∧
    (a.out_of_stock = none → a.getOutOfStock = 0) ∧
    (a.daily_sales = none → a.getDailySales = []) ∧
    (a.category_stats = none → a.getCategoryStats = []) ∧
    (a.recent_sales = none → a.getRecentSales = []) ∧
    (a.low_stock = none → a.getLowStock = []) ∧
    (a.total_products = none →
        (renderMetrics a).head? = some (Widget.metric "Total Products" "0")) := by
  refine ⟨?_, ?_, ?_, ?_, ?_, ?_, ?_, ?_, ?_⟩
  · intro h; simp [Analytics.getTotalProducts, h]
  · intro h; simp [Analytics.getTotalSales, h]
  · intro h; simp [Analytics.getTotalRevenue, h]
  · intro h; simp [Analytics.getOutOfStock, h]
  · intro h; simp [Analytics.getDailySales, h]
  · intro h; simp [Analytics.getCategoryStats, h]
  · intro h; simp [Analytics.getRecentSales, h]
  · intro h; simp [Analytics.getLowStock, h]
  · intro h
    have h0 : a.getTotalProducts = 0 := by simp [Analytics.getTotalProducts, h]
    unfold renderMetrics
    rw [h0]
    rfl

/-- Witness for C6 at the concrete snapshot `emptyAnalytics`, every key
absent. -/
theorem c6_witness :
    emptyAnalytics.getTotalProducts = 0 ∧
    emptyAnalytics.getTotalSales = 0 ∧
    emptyAnalytics.getTotalRevenue = 0 ∧
    emptyAnalytics.getOutOfStock = 0 ∧
    emptyAnalytics.getDailySales = [] ∧
    emptyAnalytics.getCategoryStats = [] ∧
    emptyAnalytics.getRecentSales = [] ∧
    emptyAnalytics.getLowStock = [] ∧
    (renderMetrics emptyAnalytics).head?
      = some (Widget.metric "Total Products" "0") :=
  ⟨(c6_missing_keys_default emptyAnalytics).1 rfl,
   (c6_missing_keys_default emptyAnalytics).2.1 rfl,
   (c6_missing_keys_default emptyAnalytics).2.2.1 rfl,
   (c6_missing_keys_default emptyAnalytics).2.2.2.1 rfl,
   (c6_missing_keys_default emptyAnalytics).2.2.2.2.1 rfl,
   (c6_missing_keys_default emptyAnalytics).2.2.2.2.2.1 rfl,
   (c6_missing_keys_default emptyAnalytics).2.2.2.2.2.2.1 rfl,
   (c6_missing_keys_default emptyAnalytics).2.2.2.2.2.2.2.1 rfl,
   (c6_missing_keys_default emptyAnalytics).2.2.2.2.2.2.2.2 rfl⟩

/-- C9: with `total_revenue` absent the Revenue metric renders the string
`"$0.00"` rather than a bare number; with a present value `v` it renders
`"$"` followed by `v` formatted as `,.2f` (two decimals, comma thousands
separators), e.g. `0 ↦ 0.00`, `12345.67 ↦ 12,345.67`, `1234.5 ↦ 1,234.50`. -/
theorem c9_revenue_format (a : Analytics) :
    (a.total_revenue = none →
        (renderMetrics a).get? 2 = some (Widget.metric "Revenue" "$0.00")) ∧
    (∀ v : ℚ, a.total_revenue = some v →
        (renderMetrics a).get? 2
          = some (Widget.metric "Revenue" ("$" ++ pyFormatCommaTwoDec v))) ∧
    pyFormatCommaTwoDec 0 = "0.00" ∧
    pyFormatCommaTwoDec (1234567 / 100) = "12,345.67" ∧
    pyFormatCommaTwoDec (2469 / 2) = "1,234.50" := by
  refine ⟨?_, ?_, pyFormat_zero, pyFormat_big, pyFormat_half⟩
  · intro h
    have h0 : a.getTotalRevenue = 0 := by simp [Analytics.getTotalRevenue, h]
    unfold renderMetrics
    rw [h0, pyFormat_zero]
    rfl
  · intro v hv
    have h0 : a.getTotalRevenue = v := by simp [Analytics.getTotalRevenue, hv]
    unfold renderMetrics
    rw [h0]
    rfl

/-- Witness for C9 at the concrete snapshots `emptyAnalytics`
(`total_revenue` absent) and `revenueAnalytics` (`total_revenue` present). -/
theorem c9_witness :
    (renderMetrics emptyAnalytics).get? 2
      = some (Widget.metric "Revenue" "$0.00") ∧
    (renderMetrics revenueAnalytics).get? 2
      = some (Widget.metric "Revenue"
          ("$" ++ pyFormatCommaTwoDec (1234567 / 100))) :=
  ⟨(c9_revenue_format emptyAnalytics).1 rfl,
   (c9_revenue_format revenueAnalytics).2.1 (1234567 / 100) rfl⟩

/-- C8: the `offline_mode` toggle does not influence the main-page content:
the script calls `get_analytics_data()` unconditionally, the main content of
a run is exactly the render of the fetched snapshot whatever the toggle is,
so two runs over the same `DataManager` that differ only in `offline_mode`
have identical main content; the toggle only selects the sidebar status
widget `renderOfflineStatus`. -/
theorem c8_offline_mode_noninterference (om₁ om₂ : Bool) (dm : DataManager)
    (now : String) :
    Except.map Page.main (runScript om₁ dm now)
      = renderMain globalsAtStockAlerts dm.get_analytics_data ∧
    Except.map Page.main (runScript om₁ dm now)
      = Except.map Page.main (runScript om₂ dm now) ∧
    renderSidebar om₁ now
      = sidebarBeforeStatus ++ renderOfflineStatus om₁ :: sidebarAfterStatus
          ++ sidebarFooter now := by
  have key : ∀ om : Bool, Except.map Page.main (runScript om dm now)
      = renderMain globalsAtStockAlerts dm.get_analytics_data := by
    intro om
    cases h : renderMain globalsAtStockAlerts dm.get_analytics_data with
    | error e =>
        simp [runScript, h, Except.map, Bind.bind, Except.bind]
    | ok ws =>
        simp [runScript, h, Except.map, Bind.bind, Except.bind]
  exact ⟨key om₁, (key om₁).trans (key om₂).symm, rfl⟩

/-- C10: the render consumes the snapshot read-only: threading the snapshot
through every rendering step returns it unchanged, and the widgets produced
are exactly those of the direct render. -/
theorem c10_render_read_only (env : List String) (a : Analytics) :
    (renderMainSt env a).fst = a ∧
    (renderMainSt env a).snd = renderMain env a :=
  ⟨rfl, rfl⟩

end Helloguys
